import Mathlib

/-!
Shallow embedding of `src/proj.py` (k8s-autobinding): a provisioning script
that ensures a namespace, creates a service account, binds it to a role and
applies a token secret, all through an external CLI invoked as a subprocess.

The external world is an oracle `Env` mapping a command line to its result
(exit code, stdout, stderr).  Running the script produces a list of observable
events: external commands attempted, console prints, file writes and removals.
The Boolean component of the result is `true` when the process finishes
normally (exit status 0) and `false` when `sys.exit(1)` terminated it.
-/

namespace K8sAutobinding

/-- Result of one subprocess invocation: exit code plus captured output. -/
structure CmdResult where
  exitCode : Nat
  stdout : String
  stderr : String
deriving Repr, DecidableEq

/-- The external cluster CLI, as an oracle from command line to result. -/
abbrev Env := List String → CmdResult

/-- The `metadata` block of the secret descriptor built in step 4 of the script. -/
structure SecretMetadata where
  name : String
  namespace_ : String
  annotations : List (String × String)
deriving Repr, DecidableEq

/-- The secret descriptor dict `secret_yaml` built in step 4 of the script. -/
structure SecretYaml where
  apiVersion : String
  kind : String
  metadata : SecretMetadata
  type : String
deriving Repr, DecidableEq

/-- Observable events of one run of the script, in order. -/
inductive Event where
  | runCmd (cmd : List String)
  | printMsg (msg : String)
  | fileWrite (path : String) (content : SecretYaml)
  | fileRemove (path : String)
deriving Repr, DecidableEq

/-- Python `" ".join(cmd)` from the error message of `run_command`. -/
def joinCmd (cmd : List String) : String := " ".intercalate cmd

/-- Python `str.strip()`: drop leading and trailing whitespace. -/
def stripStr (s : String) : String :=
  String.mk (((s.toList.dropWhile fun c => c.isWhitespace).reverse.dropWhile
    fun c => c.isWhitespace).reverse)

/-- Python `run_command(cmd)`: run the command; on success return the stripped stdout,
on a non-zero exit print the command line and the stripped stderr and
`sys.exit(1)` (modelled by `none`).  The event list records what happened. -/
def run_command (env : Env) (cmd : List String) : Option String × List Event :=
  let r := env cmd
  if r.exitCode = 0 then
    (some (stripStr r.stdout), [Event.runCmd cmd])
  else
    (none,
     [Event.runCmd cmd,
      Event.printMsg ("Error running command: " ++ joinCmd cmd),
      Event.printMsg (stripStr r.stderr)])

/-- Python `["--dry-run=client"] if dry_run else []`. -/
def dryRunFlag (dry_run : Bool) : List String :=
  if dry_run then ["--dry-run=client"] else []

/-- Python `ensure_namespace_cmd = ["kubectl", "get", "namespace", namespace]`. -/
def ensureNamespaceCmd (ns : String) : List String :=
  ["kubectl", "get", "namespace", ns]

/-- Python `create_ns_cmd = ["kubectl", "create", "namespace", namespace] + dry_run_flag`. -/
def createNsCmd (ns : String) (dry_run : Bool) : List String :=
  ["kubectl", "create", "namespace", ns] ++ dryRunFlag dry_run

/-- Python `create_sa_cmd = ["kubectl", "create", "serviceaccount", username, "--namespace", namespace] + dry_run_flag`. -/
def createSaCmd (username ns : String) (dry_run : Bool) : List String :=
  ["kubectl", "create", "serviceaccount", username, "--namespace", ns] ++ dryRunFlag dry_run

/-- Python `bind_role_cmd` of step 3. -/
def bindRoleCmd (username role ns : String) (dry_run : Bool) : List String :=
  ["kubectl", "create", "rolebinding", username ++ "-" ++ role ++ "-binding",
   "--clusterrole", role, "--serviceaccount=" ++ ns ++ ":" ++ username,
   "--namespace", ns] ++ dryRunFlag dry_run

/-- Python `secret_name = f"{username}-token"`. -/
def secretName (username : String) : String := username ++ "-token"

/-- Python `secret_file = f"{secret_name}.yaml"`. -/
def secretFile (username : String) : String := secretName username ++ ".yaml"

/-- The `secret_yaml` dict of step 4. -/
def secretDescriptor (username ns : String) : SecretYaml :=
  { apiVersion := "v1"
    kind := "Secret"
    metadata :=
      { name := secretName username
        namespace_ := ns
        annotations := [("kubernetes.io/service-account.name", username)] }
    type := "kubernetes.io/service-account-token" }

/-- Python `create_secret_cmd = ["kubectl", "apply", "-f", secret_file] + dry_run_flag`. -/
def createSecretCmd (username : String) (dry_run : Bool) : List String :=
  ["kubectl", "apply", "-f", secretFile username] ++ dryRunFlag dry_run

/-- Step 4 of `create_service_account`: build the descriptor, write the file,
apply it, and remove the file unless `dry_run`. -/
def step4_secret (env : Env) (username ns : String) (dry_run : Bool) :
    Bool × List Event :=
  let intro : List Event :=
    [Event.printMsg ("Creating a secret for the service account \x27" ++ username ++ "\x27..."),
     Event.fileWrite (secretFile username) (secretDescriptor username ns),
     Event.printMsg ("Generated secret YAML file: " ++ secretFile username)]
  match run_command env (createSecretCmd username dry_run) with
  | (some _, ev) =>
    (true,
     intro ++ ev ++
       [Event.printMsg ("Secret \x27" ++ secretName username ++ "\x27 created in namespace \x27" ++
         ns ++ "\x27 successfully.")] ++
       (if dry_run then [] else [Event.fileRemove (secretFile username)]))
  | (none, ev) => (false, intro ++ ev)

/-- Step 3 of `create_service_account`: bind the account to the role, then
continue with step 4. -/
def step3_bind (env : Env) (username role ns : String) (dry_run : Bool) :
    Bool × List Event :=
  let intro : List Event :=
    [Event.printMsg ("Binding service account \x27" ++ username ++ "\x27 to role \x27" ++ role ++ "\x27...")]
  match run_command env (bindRoleCmd username role ns dry_run) with
  | (some _, ev) =>
    ((step4_secret env username ns dry_run).1,
     intro ++ ev ++
       [Event.printMsg ("Service account \x27" ++ username ++ "\x27 bound to role \x27" ++ role ++
         "\x27 successfully.")] ++
       (step4_secret env username ns dry_run).2)
  | (none, ev) => (false, intro ++ ev)

/-- Step 2 of `create_service_account`: create the service account, then
continue with steps 3 and 4. -/
def step2_sa (env : Env) (username role ns : String) (dry_run : Bool) :
    Bool × List Event :=
  let intro : List Event :=
    [Event.printMsg ("Creating service account \x27" ++ username ++ "\x27 in namespace \x27" ++ ns ++ "\x27...")]
  match run_command env (createSaCmd username ns dry_run) with
  | (some _, ev) =>
    ((step3_bind env username role ns dry_run).1,
     intro ++ ev ++
       [Event.printMsg ("Service account \x27" ++ username ++ "\x27 created successfully.")] ++
       (step3_bind env username role ns dry_run).2)
  | (none, ev) => (false, intro ++ ev)

/-- Python `create_service_account(username, role, namespace, dry_run)`.  Step 1
queries the namespace; a non-zero exit of the query (a `SystemExit` caught by
the `except` clause) drives the create-namespace branch.  The Boolean is
`true` iff the process finished without `sys.exit(1)`. -/
def create_service_account (env : Env) (username role ns : String) (dry_run : Bool) :
    Bool × List Event :=
  let intro : List Event :=
    [Event.printMsg ("Ensuring namespace \x27" ++ ns ++ "\x27 exists...")]
  match run_command env (ensureNamespaceCmd ns) with
  | (some _, ev) =>
    ((step2_sa env username role ns dry_run).1,
     intro ++ ev ++
       [Event.printMsg ("Namespace \x27" ++ ns ++ "\x27 already exists.")] ++
       (step2_sa env username role ns dry_run).2)
  | (none, ev) =>
    match run_command env (createNsCmd ns dry_run) with
    | (some _, ev2) =>
      ((step2_sa env username role ns dry_run).1,
       intro ++ ev ++ ev2 ++
         [Event.printMsg ("Namespace \x27" ++ ns ++ "\x27 created successfully.")] ++
         (step2_sa env username role ns dry_run).2)
    | (none, ev2) => (false, intro ++ ev ++ ev2)

/-- Exit status of the process: 0 on success, 1 when `sys.exit(1)` fired. -/
def exitStatus (env : Env) (username role ns : String) (dry_run : Bool) : Nat :=
  if (create_service_account env username role ns dry_run).1 then 0 else 1

/-- The external commands attempted during a run, in order. -/
def cmdsOf (evs : List Event) : List (List String) :=
  evs.filterMap fun e =>
    match e with
    | Event.runCmd c => some c
    | _ => none

/-- One fold step of the file-system model: a write makes the file exist, a
removal makes it absent, other events leave it unchanged. -/
def fileStateStep (path : String) (st : Bool) (e : Event) : Bool :=
  match e with
  | Event.fileWrite p _ => if p = path then true else st
  | Event.fileRemove p => if p = path then false else st
  | _ => st

/-- Whether `path` exists after the events `evs`, starting from absent. -/
def fileExistsAfter (evs : List Event) (path : String) : Bool :=
  evs.foldl (fileStateStep path) false

/-- Walk the events tracking whether `path` exists (initial state the first
Boolean argument); require that at every attempt of `applyCmd` the file
exists at that moment. -/
def fileExistsAtEachApply (applyCmd : List String) (path : String) :
    Bool → List Event → Bool
  | _, [] => true
  | st, e :: rest =>
    (match e with
     | Event.runCmd c => if c = applyCmd then st else true
     | _ => true) &&
      fileExistsAtEachApply applyCmd path (fileStateStep path st e) rest

/-- The `choices` list of the `--role` argument. -/
def roleChoices : List String :=
  ["product-team-role", "lead-developer-team-role", "cs-team-role", "operator"]

/-- Outcome of the whole program: argparse rejection (exit 2, nothing ran), or
a run of `create_service_account` with its exit flag and events. -/
inductive MainResult where
  | usageError
  | ran (exitOk : Bool) (events : List Event)
deriving Repr, DecidableEq

/-- Python `__main__`: argparse validates `--role` against `choices` while parsing,
applies the `staging` default for `--namespace`, and only then calls
`create_service_account`. -/
def mainProgram (env : Env) (username role : String) (nsOpt : Option String)
    (dry_run : Bool) : MainResult :=
  if role ∈ roleChoices then
    MainResult.ran (create_service_account env username role (nsOpt.getD "staging") dry_run).1
      (create_service_account env username role (nsOpt.getD "staging") dry_run).2
  else
    MainResult.usageError

/-- The events of a whole program invocation (none when argparse rejects). -/
def mainEvents (env : Env) (username role : String) (nsOpt : Option String)
    (dry_run : Bool) : List Event :=
  match mainProgram env username role nsOpt dry_run with
  | MainResult.usageError => []
  | MainResult.ran _ evs => evs

/-- An environment in which every external command succeeds silently. -/
def envAllOk : Env := fun _ => ⟨0, "", ""⟩

/-- An environment in which the service-account create call fails and every
other command succeeds. -/
def envSaFails : Env := fun c =>
  if c = createSaCmd "alice" "staging" false then ⟨1, "", "boom"⟩ else ⟨0, "", ""⟩

/-- An environment in which the namespace query fails for a reason that is
not "not found" (an authorization error), and every other command succeeds. -/
def envAuthFail : Env := fun c =>
  if c = ensureNamespaceCmd "staging" then ⟨1, "", "Unauthorized"⟩ else ⟨0, "", ""⟩

/-! ### Helper lemmas -/

/-- Sanity check: in the all-success environment the run finishes normally
and attempts exactly the four fault-free commands. -/
theorem envAllOk_run_sanity :
    (create_service_account envAllOk "alice" "operator" "staging" false).1 = true ∧
      cmdsOf (create_service_account envAllOk "alice" "operator" "staging" false).2 =
        [["kubectl", "get", "namespace", "staging"],
         ["kubectl", "create", "serviceaccount", "alice", "--namespace", "staging"],
         ["kubectl", "create", "rolebinding", "alice-operator-binding", "--clusterrole",
          "operator", "--serviceaccount=staging:alice", "--namespace", "staging"],
         ["kubectl", "apply", "-f", "alice-token.yaml"]] := by
  decide

theorem run_command_ok (env : Env) (cmd : List String)
    (h : (env cmd).exitCode = 0) :
    run_command env cmd = (some (stripStr (env cmd).stdout), [Event.runCmd cmd]) := by
  simp [run_command, h]

theorem run_command_fail (env : Env) (cmd : List String)
    (h : ¬(env cmd).exitCode = 0) :
    run_command env cmd =
      (none,
       [Event.runCmd cmd,
        Event.printMsg ("Error running command: " ++ joinCmd cmd),
        Event.printMsg (stripStr (env cmd).stderr)]) := by
  simp [run_command, h]

@[simp] theorem cmdsOf_nil : cmdsOf [] = [] := rfl

@[simp] theorem cmdsOf_cons_run (c : List String) (evs : List Event) :
    cmdsOf (Event.runCmd c :: evs) = c :: cmdsOf evs := by
  simp [cmdsOf]

@[simp] theorem cmdsOf_cons_print (s : String) (evs : List Event) :
    cmdsOf (Event.printMsg s :: evs) = cmdsOf evs := by
  simp [cmdsOf]

@[simp] theorem cmdsOf_cons_write (p : String) (y : SecretYaml) (evs : List Event) :
    cmdsOf (Event.fileWrite p y :: evs) = cmdsOf evs := by
  simp [cmdsOf]

@[simp] theorem cmdsOf_cons_remove (p : String) (evs : List Event) :
    cmdsOf (Event.fileRemove p :: evs) = cmdsOf evs := by
  simp [cmdsOf]

@[simp] theorem cmdsOf_append (a b : List Event) :
    cmdsOf (a ++ b) = cmdsOf a ++ cmdsOf b := by
  simp [cmdsOf]

@[simp] theorem cmdsOf_removeIf (b : Bool) (p : String) :
    cmdsOf (if b then ([] : List Event) else [Event.fileRemove p]) = [] := by
  cases b <;> simp

theorem ends_self {α : Type} (E : List α) : ∃ p, E = p ++ E := ⟨[], rfl⟩

theorem ends_cons {α : Type} (a : α) {L E : List α} (h : ∃ p, L = p ++ E) :
    ∃ p, a :: L = p ++ E := by
  obtain ⟨p, rfl⟩ := h
  exact ⟨a :: p, rfl⟩

/-! ### Claims -/

/-- C1: for every valid input, a run that completes successfully attempts
exactly the four ordered cluster operations — namespace ensure (the query,
followed by the create when the query failed), service-account create,
role-binding create, secret apply — in that order, none skipped or
reordered. -/
theorem C1_four_ordered_operations (env : Env) (u r n : String) (d : Bool)
    (hok : (create_service_account env u r n d).1 = true) :
    cmdsOf (create_service_account env u r n d).2 =
        [ensureNamespaceCmd n, createSaCmd u n d, bindRoleCmd u r n d,
         createSecretCmd u d] ∨
      cmdsOf (create_service_account env u r n d).2 =
        [ensureNamespaceCmd n, createNsCmd n d, createSaCmd u n d,
         bindRoleCmd u r n d, createSecretCmd u d] := by
  by_cases hq : (env (ensureNamespaceCmd n)).exitCode = 0 <;>
    by_cases hc : (env (createNsCmd n d)).exitCode = 0 <;>
      by_cases hs : (env (createSaCmd u n d)).exitCode = 0 <;>
        by_cases hb : (env (bindRoleCmd u r n d)).exitCode = 0 <;>
          by_cases ha : (env (createSecretCmd u d)).exitCode = 0 <;>
            simp_all [create_service_account, step2_sa, step3_bind, step4_secret,
              run_command_ok, run_command_fail]

/-- C1 witness: with every command succeeding, the fault-free command
sequence is attempted. -/
theorem C1_four_ordered_operations_witness :
    (create_service_account envAllOk "alice" "operator" "staging" false).1 = true ∧
      (cmdsOf (create_service_account envAllOk "alice" "operator" "staging" false).2 =
          [ensureNamespaceCmd "staging", createSaCmd "alice" "staging" false,
           bindRoleCmd "alice" "operator" "staging" false, createSecretCmd "alice" false] ∨
        cmdsOf (create_service_account envAllOk "alice" "operator" "staging" false).2 =
          [ensureNamespaceCmd "staging", createNsCmd "staging" false,
           createSaCmd "alice" "staging" false, bindRoleCmd "alice" "operator" "staging" false,
           createSecretCmd "alice" false]) :=
  ⟨by decide, C1_four_ordered_operations envAllOk "alice" "operator" "staging" false (by decide)⟩

/-- C2: if any attempted external call other than the namespace-existence
query exits non-zero, the run terminates with exit status 1, and the event
list ends with exactly that call, the printed failing command line and the
printed stripped stderr — so no later step runs. -/
theorem C2_failure_is_fatal (env : Env) (u r n : String) (d : Bool) (c : List String)
    (hmem : c ∈ cmdsOf (create_service_account env u r n d).2)
    (hne : c ≠ ensureNamespaceCmd n)
    (hfail : (env c).exitCode ≠ 0) :
    (create_service_account env u r n d).1 = false ∧
      exitStatus env u r n d = 1 ∧
      ∃ pre, (create_service_account env u r n d).2 =
        pre ++ [Event.runCmd c,
          Event.printMsg ("Error running command: " ++ joinCmd c),
          Event.printMsg (stripStr (env c).stderr)] := by
  by_cases hq : (env (ensureNamespaceCmd n)).exitCode = 0
  · by_cases hs : (env (createSaCmd u n d)).exitCode = 0
    · by_cases hb : (env (bindRoleCmd u r n d)).exitCode = 0
      · by_cases ha : (env (createSecretCmd u d)).exitCode = 0
        · simp [create_service_account, step2_sa, step3_bind, step4_secret, exitStatus,
            run_command_ok _ _ hq, run_command_ok _ _ hs, run_command_ok _ _ hb,
            run_command_ok _ _ ha] at hmem ⊢
          rcases hmem with rfl | rfl | rfl | rfl
          · exact absurd rfl hne
          · exact absurd hs hfail
          · exact absurd hb hfail
          · exact absurd ha hfail
        · simp [create_service_account, step2_sa, step3_bind, step4_secret, exitStatus,
            run_command_ok _ _ hq, run_command_ok _ _ hs, run_command_ok _ _ hb,
            run_command_fail _ _ ha] at hmem ⊢
          rcases hmem with rfl | rfl | rfl | rfl
          · exact absurd rfl hne
          · exact absurd hs hfail
          · exact absurd hb hfail
          · repeat first | exact ends_self _ | apply ends_cons
      · simp [create_service_account, step2_sa, step3_bind, step4_secret, exitStatus,
          run_command_ok _ _ hq, run_command_ok _ _ hs,
          run_command_fail _ _ hb] at hmem ⊢
        rcases hmem with rfl | rfl | rfl
        · exact absurd rfl hne
        · exact absurd hs hfail
        · repeat first | exact ends_self _ | apply ends_cons
    · simp [create_service_account, step2_sa, exitStatus,
        run_command_ok _ _ hq, run_command_fail _ _ hs] at hmem ⊢
      rcases hmem with rfl | rfl
      · exact absurd rfl hne
      · repeat first | exact ends_self _ | apply ends_cons
  · by_cases hc : (env (createNsCmd n d)).exitCode = 0
    · by_cases hs : (env (createSaCmd u n d)).exitCode = 0
      · by_cases hb : (env (bindRoleCmd u r n d)).exitCode = 0
        · by_cases ha : (env (createSecretCmd u d)).exitCode = 0
          · simp [create_service_account, step2_sa, step3_bind, step4_secret, exitStatus,
              run_command_fail _ _ hq, run_command_ok _ _ hc, run_command_ok _ _ hs,
              run_command_ok _ _ hb, run_command_ok _ _ ha] at hmem ⊢
            rcases hmem with rfl | rfl | rfl | rfl | rfl
            · exact absurd rfl hne
            · exact absurd hc hfail
            · exact absurd hs hfail
            · exact absurd hb hfail
            · exact absurd ha hfail
          · simp [create_service_account, step2_sa, step3_bind, step4_secret, exitStatus,
              run_command_fail _ _ hq, run_command_ok _ _ hc, run_command_ok _ _ hs,
              run_command_ok _ _ hb, run_command_fail _ _ ha] at hmem ⊢
            rcases hmem with rfl | rfl | rfl | rfl | rfl
            · exact absurd rfl hne
            · exact absurd hc hfail
            · exact absurd hs hfail
            · exact absurd hb hfail
            · repeat first | exact ends_self _ | apply ends_cons
        · simp [create_service_account, step2_sa, step3_bind, step4_secret, exitStatus,
            run_command_fail _ _ hq, run_command_ok _ _ hc, run_command_ok _ _ hs,
            run_command_fail _ _ hb] at hmem ⊢
          rcases hmem with rfl | rfl | rfl | rfl
          · exact absurd rfl hne
          · exact absurd hc hfail
          · exact absurd hs hfail
          · repeat first | exact ends_self _ | apply ends_cons
      · simp [create_service_account, step2_sa, exitStatus,
          run_command_fail _ _ hq, run_command_ok _ _ hc,
          run_command_fail _ _ hs] at hmem ⊢
        rcases hmem with rfl | rfl | rfl
        · exact absurd rfl hne
        · exact absurd hc hfail
        · repeat first | exact ends_self _ | apply ends_cons
    · simp [create_service_account, exitStatus,
        run_command_fail _ _ hq, run_command_fail _ _ hc] at hmem ⊢
      rcases hmem with rfl | rfl
      · exact absurd rfl hne
      · repeat first | exact ends_self _ | apply ends_cons

/-- C2 witness: a failing service-account create call stops the run. -/
theorem C2_failure_is_fatal_witness :
    createSaCmd "alice" "staging" false ∈
        cmdsOf (create_service_account envSaFails "alice" "operator" "staging" false).2 ∧
      createSaCmd "alice" "staging" false ≠ ensureNamespaceCmd "staging" ∧
      (envSaFails (createSaCmd "alice" "staging" false)).exitCode ≠ 0 ∧
      ((create_service_account envSaFails "alice" "operator" "staging" false).1 = false ∧
        exitStatus envSaFails "alice" "operator" "staging" false = 1 ∧
        ∃ pre, (create_service_account envSaFails "alice" "operator" "staging" false).2 =
          pre ++ [Event.runCmd (createSaCmd "alice" "staging" false),
            Event.printMsg ("Error running command: " ++
              joinCmd (createSaCmd "alice" "staging" false)),
            Event.printMsg
              (stripStr (envSaFails (createSaCmd "alice" "staging" false)).stderr)]) :=
  ⟨by decide, by decide, by decide,
    C2_failure_is_fatal envSaFails "alice" "operator" "staging" false
      (createSaCmd "alice" "staging" false) (by decide) (by decide) (by decide)⟩

/-- C3 counterexample: in a concrete fault-free run the script writes the
descriptor for `alice`, and its annotation mapping is not
`[("service-account-name", "alice")]` — the key the code uses is
`kubernetes.io/service-account.name`. -/
theorem C3_annotation_key_counterexample :
    Event.fileWrite "alice-token.yaml" (secretDescriptor "alice" "staging") ∈
        (create_service_account envAllOk "alice" "operator" "staging" false).2 ∧
      (secretDescriptor "alice" "staging").metadata.annotations ≠
        [("service-account-name", "alice")] := by
  decide

/-- C3 (amended): every successful run writes the secret descriptor for the
given username and namespace, and its annotation mapping is the single key
`kubernetes.io/service-account.name` mapped to the username. -/
theorem C3_secret_annotations (env : Env) (u r n : String) (d : Bool)
    (hok : (create_service_account env u r n d).1 = true) :
    Event.fileWrite (secretFile u) (secretDescriptor u n) ∈
        (create_service_account env u r n d).2 ∧
      (secretDescriptor u n).metadata.annotations =
        [("kubernetes.io/service-account.name", u)] := by
  refine ⟨?_, rfl⟩
  by_cases hq : (env (ensureNamespaceCmd n)).exitCode = 0 <;>
    by_cases hc : (env (createNsCmd n d)).exitCode = 0 <;>
      by_cases hs : (env (createSaCmd u n d)).exitCode = 0 <;>
        by_cases hb : (env (bindRoleCmd u r n d)).exitCode = 0 <;>
          by_cases ha : (env (createSecretCmd u d)).exitCode = 0 <;>
            simp_all [create_service_account, step2_sa, step3_bind, step4_secret,
              run_command_ok, run_command_fail]

/-- C3 witness: the amended annotation property at a concrete fault-free
run. -/
theorem C3_secret_annotations_witness :
    (create_service_account envAllOk "alice" "operator" "staging" false).1 = true ∧
      (Event.fileWrite (secretFile "alice") (secretDescriptor "alice" "staging") ∈
          (create_service_account envAllOk "alice" "operator" "staging" false).2 ∧
        (secretDescriptor "alice" "staging").metadata.annotations =
          [("kubernetes.io/service-account.name", "alice")]) :=
  ⟨by decide, C3_secret_annotations envAllOk "alice" "operator" "staging" false (by decide)⟩

/-- C4 counterexample: a namespace query failing with an authorization error
(not "not found") is not fatal — the create-namespace command is still
issued and the run completes with every later call succeeding. -/
theorem C4_other_failure_not_fatal_counterexample :
    (envAuthFail (ensureNamespaceCmd "staging")).stderr = "Unauthorized" ∧
      (envAuthFail (ensureNamespaceCmd "staging")).exitCode ≠ 0 ∧
      Event.runCmd (createNsCmd "staging" false) ∈
        (create_service_account envAuthFail "alice" "operator" "staging" false).2 ∧
      (create_service_account envAuthFail "alice" "operator" "staging" false).1 = true := by
  decide

/-- C4 (amended): every non-zero exit of the namespace query — whatever its
cause — is treated as the signal to create the namespace, and the query
failure by itself is never fatal: creation is attempted, and when the
remaining calls succeed the run still completes with success. -/
theorem C4_any_query_failure_creates (env : Env) (u r n : String) (d : Bool)
    (hq : (env (ensureNamespaceCmd n)).exitCode ≠ 0) :
    Event.runCmd (createNsCmd n d) ∈ (create_service_account env u r n d).2 ∧
      ((env (createNsCmd n d)).exitCode = 0 →
        (env (createSaCmd u n d)).exitCode = 0 →
        (env (bindRoleCmd u r n d)).exitCode = 0 →
        (env (createSecretCmd u d)).exitCode = 0 →
        (create_service_account env u r n d).1 = true) := by
  constructor
  · by_cases hc : (env (createNsCmd n d)).exitCode = 0
    · simp [create_service_account, run_command_fail _ _ hq, run_command_ok _ _ hc]
    · simp [create_service_account, run_command_fail _ _ hq, run_command_fail _ _ hc]
  · intro hc hs hb ha
    simp [create_service_account, step2_sa, step3_bind, step4_secret,
      run_command_fail _ _ hq, run_command_ok _ _ hc, run_command_ok _ _ hs,
      run_command_ok _ _ hb, run_command_ok _ _ ha]

/-- C4 witness: the amended behavior at the concrete authorization-error
environment. -/
theorem C4_any_query_failure_creates_witness :
    (envAuthFail (ensureNamespaceCmd "staging")).exitCode ≠ 0 ∧
      (Event.runCmd (createNsCmd "staging" false) ∈
          (create_service_account envAuthFail "alice" "operator" "staging" false).2 ∧
        ((envAuthFail (createNsCmd "staging" false)).exitCode = 0 →
          (envAuthFail (createSaCmd "alice" "staging" false)).exitCode = 0 →
          (envAuthFail (bindRoleCmd "alice" "operator" "staging" false)).exitCode = 0 →
          (envAuthFail (createSecretCmd "alice" false)).exitCode = 0 →
          (create_service_account envAuthFail "alice" "operator" "staging" false).1 = true)) :=
  ⟨by decide, C4_any_query_failure_creates envAuthFail "alice" "operator" "staging" false
    (by decide)⟩

/-- No command shaped like `kubectl create namespace …` is ever attempted by
steps 2-4. -/
theorem step2_no_nsCreate (env : Env) (u r n : String) (d : Bool) (l : List String) :
    Event.runCmd (["kubectl", "create", "namespace", n] ++ l) ∉
      (step2_sa env u r n d).2 := by
  by_cases hs : (env (createSaCmd u n d)).exitCode = 0 <;>
    by_cases hb : (env (bindRoleCmd u r n d)).exitCode = 0 <;>
      by_cases ha : (env (createSecretCmd u d)).exitCode = 0 <;>
        simp_all [step2_sa, step3_bind, step4_secret, run_command_ok, run_command_fail,
          createSaCmd, bindRoleCmd, createSecretCmd, dryRunFlag]

/-- C5: when the namespace-existence query exits non-zero, the
create-namespace command is issued and execution continues into step 2 once
the creation succeeds; when the query exits zero, no create-namespace
command of any shape is issued. -/
theorem C5_namespace_branch (env : Env) (u r n : String) (d : Bool) :
    ((env (ensureNamespaceCmd n)).exitCode ≠ 0 →
        Event.runCmd (createNsCmd n d) ∈ (create_service_account env u r n d).2 ∧
          ((env (createNsCmd n d)).exitCode = 0 →
            Event.runCmd (createSaCmd u n d) ∈ (create_service_account env u r n d).2)) ∧
      ((env (ensureNamespaceCmd n)).exitCode = 0 →
        ∀ l : List String,
          Event.runCmd (["kubectl", "create", "namespace", n] ++ l) ∉
            (create_service_account env u r n d).2) := by
  constructor
  · intro hq
    constructor
    · by_cases hc : (env (createNsCmd n d)).exitCode = 0
      · simp [create_service_account, run_command_fail _ _ hq, run_command_ok _ _ hc]
      · simp [create_service_account, run_command_fail _ _ hq, run_command_fail _ _ hc]
    · intro hc
      by_cases hs : (env (createSaCmd u n d)).exitCode = 0 <;>
        simp_all [create_service_account, step2_sa, run_command_fail _ _ hq,
          run_command_ok _ _ hc, run_command_ok, run_command_fail]
  · intro hq l
    have h2 := step2_no_nsCreate env u r n d l
    simp_all [create_service_account, run_command, ensureNamespaceCmd]

/-- C5 witness: both branches at concrete environments. -/
theorem C5_namespace_branch_witness :
    ((envAuthFail (ensureNamespaceCmd "staging")).exitCode ≠ 0 ∧
        Event.runCmd (createNsCmd "staging" false) ∈
          (create_service_account envAuthFail "alice" "operator" "staging" false).2) ∧
      ((envAllOk (ensureNamespaceCmd "staging")).exitCode = 0 ∧
        Event.runCmd (["kubectl", "create", "namespace", "staging"] ++ []) ∉
          (create_service_account envAllOk "alice" "operator" "staging" false).2) :=
  ⟨⟨by decide,
      ((C5_namespace_branch envAuthFail "alice" "operator" "staging" false).1 (by decide)).1⟩,
    ⟨by decide,
      (C5_namespace_branch envAllOk "alice" "operator" "staging" false).2 (by decide) []⟩⟩

/-- C6: in a dry run, every attempted external call other than the
namespace-existence query carries `--dry-run=client`, and no file is ever
removed. -/
theorem C6_dry_run (env : Env) (u r n : String) :
    (∀ c ∈ cmdsOf (create_service_account env u r n true).2,
        c ≠ ensureNamespaceCmd n → "--dry-run=client" ∈ c) ∧
      ∀ p : String, Event.fileRemove p ∉ (create_service_account env u r n true).2 := by
  by_cases hq : (env (ensureNamespaceCmd n)).exitCode = 0 <;>
    by_cases hc : (env (createNsCmd n true)).exitCode = 0 <;>
      by_cases hs : (env (createSaCmd u n true)).exitCode = 0 <;>
        by_cases hb : (env (bindRoleCmd u r n true)).exitCode = 0 <;>
          by_cases ha : (env (createSecretCmd u true)).exitCode = 0 <;>
            simp_all [create_service_account, step2_sa, step3_bind, step4_secret,
              run_command_ok, run_command_fail, createNsCmd, createSaCmd, bindRoleCmd,
              createSecretCmd, dryRunFlag]

/-- C6 witness: dry-run behavior at a concrete fault-free run. -/
theorem C6_dry_run_witness :
    "--dry-run=client" ∈ createSaCmd "alice" "staging" true ∧
      Event.fileRemove "alice-token.yaml" ∉
        (create_service_account envAllOk "alice" "operator" "staging" true).2 :=
  ⟨(C6_dry_run envAllOk "alice" "operator" "staging").1
      (createSaCmd "alice" "staging" true) (by decide) (by decide),
    (C6_dry_run envAllOk "alice" "operator" "staging").2 "alice-token.yaml"⟩

/-- C7: in a successful non-dry run, the apply call is attempted, the
descriptor file exists at every moment the apply call is attempted, and the
file no longer exists once the run has completed. -/
theorem C7_file_lifecycle (env : Env) (u r n : String)
    (hok : (create_service_account env u r n false).1 = true) :
    Event.runCmd (createSecretCmd u false) ∈ (create_service_account env u r n false).2 ∧
      fileExistsAtEachApply (createSecretCmd u false) (secretFile u) false
        (create_service_account env u r n false).2 = true ∧
      fileExistsAfter (create_service_account env u r n false).2 (secretFile u) = false := by
  by_cases hq : (env (ensureNamespaceCmd n)).exitCode = 0
  · by_cases hs : (env (createSaCmd u n false)).exitCode = 0
    · by_cases hb : (env (bindRoleCmd u r n false)).exitCode = 0
      · by_cases ha : (env (createSecretCmd u false)).exitCode = 0
        · refine ⟨?_, ?_, ?_⟩ <;>
            (simp only [create_service_account, step2_sa, step3_bind, step4_secret,
              run_command_ok _ _ hq, run_command_ok _ _ hs, run_command_ok _ _ hb,
              run_command_ok _ _ ha];
             simp [fileExistsAtEachApply, fileStateStep, fileExistsAfter,
              ensureNamespaceCmd, createSaCmd, bindRoleCmd, createSecretCmd, dryRunFlag,
              secretFile, secretName])
        · simp [create_service_account, step2_sa, step3_bind, step4_secret,
            run_command_ok _ _ hq, run_command_ok _ _ hs, run_command_ok _ _ hb,
            run_command_fail _ _ ha] at hok
      · simp [create_service_account, step2_sa, step3_bind,
          run_command_ok _ _ hq, run_command_ok _ _ hs, run_command_fail _ _ hb] at hok
    · simp [create_service_account, step2_sa,
        run_command_ok _ _ hq, run_command_fail _ _ hs] at hok
  · by_cases hc : (env (createNsCmd n false)).exitCode = 0
    · by_cases hs : (env (createSaCmd u n false)).exitCode = 0
      · by_cases hb : (env (bindRoleCmd u r n false)).exitCode = 0
        · by_cases ha : (env (createSecretCmd u false)).exitCode = 0
          · refine ⟨?_, ?_, ?_⟩ <;>
              (simp only [create_service_account, step2_sa, step3_bind, step4_secret,
                run_command_fail _ _ hq, run_command_ok _ _ hc, run_command_ok _ _ hs,
                run_command_ok _ _ hb, run_command_ok _ _ ha];
               simp [fileExistsAtEachApply, fileStateStep, fileExistsAfter,
                ensureNamespaceCmd, createNsCmd, createSaCmd, bindRoleCmd,
                createSecretCmd, dryRunFlag, secretFile, secretName])
          · simp [create_service_account, step2_sa, step3_bind, step4_secret,
              run_command_fail _ _ hq, run_command_ok _ _ hc, run_command_ok _ _ hs,
              run_command_ok _ _ hb, run_command_fail _ _ ha] at hok
        · simp [create_service_account, step2_sa, step3_bind,
            run_command_fail _ _ hq, run_command_ok _ _ hc, run_command_ok _ _ hs,
            run_command_fail _ _ hb] at hok
      · simp [create_service_account, step2_sa,
          run_command_fail _ _ hq, run_command_ok _ _ hc, run_command_fail _ _ hs] at hok
    · simp [create_service_account,
        run_command_fail _ _ hq, run_command_fail _ _ hc] at hok

/-- C7 witness: the file lifecycle at a concrete fault-free non-dry run. -/
theorem C7_file_lifecycle_witness :
    (create_service_account envAllOk "alice" "operator" "staging" false).1 = true ∧
      (Event.runCmd (createSecretCmd "alice" false) ∈
          (create_service_account envAllOk "alice" "operator" "staging" false).2 ∧
        fileExistsAtEachApply (createSecretCmd "alice" false) (secretFile "alice") false
          (create_service_account envAllOk "alice" "operator" "staging" false).2 = true ∧
        fileExistsAfter (create_service_account envAllOk "alice" "operator" "staging" false).2
          (secretFile "alice") = false) :=
  ⟨by decide, C7_file_lifecycle envAllOk "alice" "operator" "staging" (by decide)⟩

/-- C8: an input whose role is outside the fixed four-element choices list is
rejected by argument parsing before `create_service_account` runs, so no
external call and no event at all happens. -/
theorem C8_role_validation (env : Env) (u role : String) (nsOpt : Option String) (d : Bool)
    (h : role ∉ roleChoices) :
    mainProgram env u role nsOpt d = MainResult.usageError ∧
      mainEvents env u role nsOpt d = [] := by
  simp [mainProgram, mainEvents, h]

/-- C8 witness: a concrete invalid role is rejected with no event. -/
theorem C8_role_validation_witness :
    "cluster-admin" ∉ roleChoices ∧
      (mainProgram envAllOk "alice" "cluster-admin" (some "staging") false =
          MainResult.usageError ∧
        mainEvents envAllOk "alice" "cluster-admin" (some "staging") false = []) :=
  ⟨by decide,
    C8_role_validation envAllOk "alice" "cluster-admin" (some "staging") false (by decide)⟩

/-- C9: in every successful run the role binding attempted is named
`{username}-{role}-binding` and links the account (`--serviceaccount=ns:user`)
to the given cluster role, the secret is named `{username}-token`, and the
descriptor file `{username}-token.yaml` is written containing apiVersion,
kind, metadata (name, namespace, annotations) and type. -/
theorem C9_artifact_names (env : Env) (u r n : String) (d : Bool)
    (hok : (create_service_account env u r n d).1 = true) :
    Event.runCmd (["kubectl", "create", "rolebinding", u ++ "-" ++ r ++ "-binding",
        "--clusterrole", r, "--serviceaccount=" ++ n ++ ":" ++ u,
        "--namespace", n] ++ dryRunFlag d) ∈ (create_service_account env u r n d).2 ∧
      secretName u = u ++ "-token" ∧
      secretFile u = u ++ "-token" ++ ".yaml" ∧
      Event.fileWrite (u ++ "-token" ++ ".yaml")
          { apiVersion := "v1", kind := "Secret",
            metadata :=
              { name := u ++ "-token", namespace_ := n,
                annotations := [("kubernetes.io/service-account.name", u)] },
            type := "kubernetes.io/service-account-token" } ∈
        (create_service_account env u r n d).2 := by
  refine ⟨?_, rfl, rfl, ?_⟩ <;>
    (by_cases hq : (env (ensureNamespaceCmd n)).exitCode = 0 <;>
      by_cases hc : (env (createNsCmd n d)).exitCode = 0 <;>
        by_cases hs : (env (createSaCmd u n d)).exitCode = 0 <;>
          by_cases hb : (env (bindRoleCmd u r n d)).exitCode = 0 <;>
            by_cases ha : (env (createSecretCmd u d)).exitCode = 0 <;>
              simp_all [create_service_account, step2_sa, step3_bind, step4_secret,
                run_command_ok, run_command_fail, bindRoleCmd, secretFile, secretName,
                secretDescriptor])

/-- C9 witness: artifact names at a concrete fault-free run. -/
theorem C9_artifact_names_witness :
    (create_service_account envAllOk "alice" "operator" "staging" false).1 = true ∧
      (Event.runCmd (["kubectl", "create", "rolebinding", "alice" ++ "-" ++ "operator" ++ "-binding",
          "--clusterrole", "operator", "--serviceaccount=" ++ "staging" ++ ":" ++ "alice",
          "--namespace", "staging"] ++ dryRunFlag false) ∈
          (create_service_account envAllOk "alice" "operator" "staging" false).2 ∧
        secretName "alice" = "alice" ++ "-token" ∧
        secretFile "alice" = "alice" ++ "-token" ++ ".yaml" ∧
        Event.fileWrite ("alice" ++ "-token" ++ ".yaml")
            { apiVersion := "v1", kind := "Secret",
              metadata :=
                { name := "alice" ++ "-token", namespace_ := "staging",
                  annotations := [("kubernetes.io/service-account.name", "alice")] },
              type := "kubernetes.io/service-account-token" } ∈
          (create_service_account envAllOk "alice" "operator" "staging" false).2) :=
  ⟨by decide, C9_artifact_names envAllOk "alice" "operator" "staging" false (by decide)⟩

/-- C10: a failing namespace query is not silent even though it is
non-fatal — the run prints the failing command line and the stripped stderr
right after attempting the query, and then still attempts the
create-namespace command. -/
theorem C10_nonfatal_diagnostic (env : Env) (u r n : String) (d : Bool)
    (hq : (env (ensureNamespaceCmd n)).exitCode ≠ 0) :
    ∃ rest, (create_service_account env u r n d).2 =
      Event.printMsg ("Ensuring namespace \x27" ++ n ++ "\x27 exists...") ::
        Event.runCmd (ensureNamespaceCmd n) ::
        Event.printMsg ("Error running command: " ++ joinCmd (ensureNamespaceCmd n)) ::
        Event.printMsg (stripStr (env (ensureNamespaceCmd n)).stderr) ::
        Event.runCmd (createNsCmd n d) :: rest := by
  by_cases hc : (env (createNsCmd n d)).exitCode = 0
  · simp [create_service_account, run_command_fail _ _ hq, run_command_ok _ _ hc]
  · simp [create_service_account, run_command_fail _ _ hq, run_command_fail _ _ hc]

/-- C10 witness: the diagnostic prints and continuation at the concrete
authorization-error environment. -/
theorem C10_nonfatal_diagnostic_witness :
    (envAuthFail (ensureNamespaceCmd "staging")).exitCode ≠ 0 ∧
      ∃ rest, (create_service_account envAuthFail "alice" "operator" "staging" false).2 =
        Event.printMsg ("Ensuring namespace \x27staging\x27 exists...") ::
          Event.runCmd (ensureNamespaceCmd "staging") ::
          Event.printMsg ("Error running command: " ++ joinCmd (ensureNamespaceCmd "staging")) ::
          Event.printMsg (stripStr (envAuthFail (ensureNamespaceCmd "staging")).stderr) ::
          Event.runCmd (createNsCmd "staging" false) :: rest :=
  ⟨by decide, C10_nonfatal_diagnostic envAuthFail "alice" "operator" "staging" false (by decide)⟩

end K8sAutobinding
